import Mathlib

set_option maxRecDepth 4096

/-!
Verification of the Art-07 repository: seven standalone scripts driving a
3D host application (scene clearing, material creation, grid geometry,
lights, cameras, render calls).  The definitions below shallowly embed the
arithmetic and the call sequences of the scripts; machine floats are
modelled by exact rationals (and reals where the code uses sqrt, exp, sin
and cos), the host scripting API by explicit event traces, and fallible
node lookups by Option / Except.
-/

/-- The seven scripts of the repository. -/
inductive Script : Type
  | create_art
  | palladian_villa
  | villa_rotonda
  | vignelli_v1
  | vignelli_v2
  | vignelli_v3
  | vignelli_v4
deriving DecidableEq

/-- Kinds of host-API calls a script issues, in source order:
scene clearing, material definition, geometry placement, light placement,
camera placement, renderer configuration, render invocation. -/
inductive Event : Type
  | clear
  | material
  | geometry
  | light
  | camera
  | renderConfig
  | render
deriving DecidableEq

/-- The iteration space of a `for c in range(cols): for r in range(rows):`
double loop, in execution order. -/
def gridCells (cols rows : Nat) : List (Nat × Nat) :=
  (List.range cols).flatMap (fun c => (List.range rows).map (fun r => (c, r)))

/-- The grid dimensions (COLS, ROWS) of each script that contains a
grid-construction double loop; `none` for the scripts without one. -/
def gridDims : Script → Option (Nat × Nat)
  | Script.vignelli_v1 => some (12, 12)
  | Script.vignelli_v2 => some (12, 12)
  | Script.vignelli_v3 => some (12, 12)
  | Script.vignelli_v4 => some (16, 16)
  | _ => none

/-- The hardcoded output filepaths passed to the render invocations of each
script, one list entry per `bpy.ops.render.render(write_still=True)` call,
in source order. -/
def renderPaths : Script → List String
  | Script.create_art =>
      ["/data/.openclaw/workspace/art/socrates_first_render.png"]
  | Script.palladian_villa =>
      ["/data/.openclaw/workspace/art/palladian_villa.png"]
  | Script.villa_rotonda =>
      ["/data/.openclaw/workspace/art/villa_rotonda_perspective.png",
       "/data/.openclaw/workspace/art/villa_rotonda_plan.png",
       "/data/.openclaw/workspace/art/villa_rotonda_section.png",
       "/data/.openclaw/workspace/art/villa_rotonda_elevation.png"]
  | Script.vignelli_v1 =>
      ["/data/.openclaw/workspace/art/renders/2026-02-15/vignelli_visual_score_01.png"]
  | Script.vignelli_v2 =>
      ["/data/.openclaw/workspace/art/renders/2026-02-15/vignelli_visual_score_v2.png"]
  | Script.vignelli_v3 =>
      ["/data/.openclaw/workspace/art/renders/2026-02-16/vignelli_visual_score_v3.png"]
  | Script.vignelli_v4 =>
      ["/data/.openclaw/workspace/art/renders/2026-02-17/vignelli_visual_score_v4.png"]

/-- Host-API call trace of create_art.py: two clearing passes (delete all,
then remove leftover lights/cameras), metaball cluster, its material, three
lights, ground plane, ground material, camera, render settings, one render. -/
def createArtTrace : List Event :=
  [Event.clear, Event.clear, Event.geometry, Event.material,
   Event.light, Event.light, Event.light,
   Event.geometry, Event.material,
   Event.camera, Event.renderConfig, Event.render]

/-- Host-API call trace of palladian_villa.py: clear, five materials, then
all geometry (base, 5 rustication bands, piano nobile, attic, pediment,
5 portico columns, 6 windows, dome drum, dome, cupola, roof, 7 stairs,
31 objects in total), three lights, camera, render settings, one render. -/
def palladianTrace : List Event :=
  [Event.clear]
    ++ List.replicate 5 Event.material
    ++ List.replicate 31 Event.geometry
    ++ List.replicate 3 Event.light
    ++ [Event.camera, Event.renderConfig, Event.render]

/-- Host-API call trace of villa_rotonda.py: clear, seven materials, then
all geometry (basement, main body, 4 porticos of 14 objects each, attic,
dome drum, dome, lantern, lantern dome, roof, 8 windows, interior hall,
73 objects in total), two lights, four cameras, render settings, then four
(camera+filepath reconfiguration, render) pairs. -/
def rotondaTrace : List Event :=
  [Event.clear]
    ++ List.replicate 7 Event.material
    ++ List.replicate 73 Event.geometry
    ++ List.replicate 2 Event.light
    ++ List.replicate 4 Event.camera
    ++ [Event.renderConfig,
        Event.renderConfig, Event.render,
        Event.renderConfig, Event.render,
        Event.renderConfig, Event.render,
        Event.renderConfig, Event.render]

/-- Host-API call trace of vignelli_visual_score.py: clear, two materials,
144 grid cubes, ground plane, sun, camera, render settings, one render. -/
def vignelliV1Trace : List Event :=
  [Event.clear, Event.material, Event.material]
    ++ (gridCells 12 12).map (fun _ => Event.geometry)
    ++ [Event.geometry, Event.light, Event.camera, Event.renderConfig, Event.render]

/-- Host-API call trace of vignelli_visual_score_v2.py: clear, two
materials, 144 grid cubes, ground plane, sun, camera, render settings, one
render. -/
def vignelliV2Trace : List Event :=
  [Event.clear, Event.material, Event.material]
    ++ (gridCells 12 12).map (fun _ => Event.geometry)
    ++ [Event.geometry, Event.light, Event.camera, Event.renderConfig, Event.render]

/-- Host-API call trace of vignelli_visual_score_v3.py: clear, the 7-stop
palette materials, 144 grid cubes, ground plane, then the ground material
(created after the grid geometry), two lights, camera, render settings, one
render. -/
def vignelliV3Trace : List Event :=
  [Event.clear]
    ++ (List.range 7).map (fun _ => Event.material)
    ++ (gridCells 12 12).map (fun _ => Event.geometry)
    ++ [Event.geometry, Event.material,
        Event.light, Event.light,
        Event.camera, Event.renderConfig, Event.render]

/-- Host-API call trace of vignelli_visual_score_v4.py: clear, then for
each of the 256 grid cells a cube followed by that cell's own material,
then (when any cell had emergence above 0.7, flag `metaballs`) the metaball
object and its material, ground plane, ground material, three lights,
camera, render settings, one render. -/
def vignelliV4Trace (metaballs : Bool) : List Event :=
  [Event.clear]
    ++ (gridCells 16 16).flatMap (fun _ => [Event.geometry, Event.material])
    ++ (if metaballs then [Event.geometry, Event.material] else [])
    ++ [Event.geometry, Event.material,
        Event.light, Event.light, Event.light,
        Event.camera, Event.renderConfig, Event.render]

/-- The call trace of each script.  The flag only matters for v4, whose
metaball section is guarded by `if objects_for_metaball:`. -/
def trace : Script → Bool → List Event
  | Script.create_art, _ => createArtTrace
  | Script.palladian_villa, _ => palladianTrace
  | Script.villa_rotonda, _ => rotondaTrace
  | Script.vignelli_v1, _ => vignelliV1Trace
  | Script.vignelli_v2, _ => vignelliV2Trace
  | Script.vignelli_v3, _ => vignelliV3Trace
  | Script.vignelli_v4, b => vignelliV4Trace b

/-- An event that creates a scene object or datablock. -/
def isCreation : Event → Bool
  | Event.material => true
  | Event.geometry => true
  | Event.light => true
  | Event.camera => true
  | _ => false

/-- Every scene-clearing call precedes every object-creation call: no
clear event occurs at or after the first creation event. -/
def clearFirst (t : List Event) : Bool :=
  (t.dropWhile (fun e => !(isCreation e))).all (fun e => e != Event.clear)

/-- Every material definition precedes every geometry placement: no
material event occurs after the first geometry event. -/
def materialsFirst (t : List Event) : Bool :=
  (t.dropWhile (fun e => e != Event.geometry)).all (fun e => e != Event.material)

/-- The input sockets of the host's default Principled BSDF node that the
scripts write to; the node found by `nodes.get("Principled BSDF")` carries
host defaults for every socket, and a helper overwrites only some of them. -/
structure PrincipledBSDF : Type where
  base_color : ℚ × ℚ × ℚ × ℚ
  roughness : ℚ
  metallic : ℚ
  transmission : ℚ
  ior : ℚ
  emission_strength : ℚ
  emission_color : ℚ × ℚ × ℚ × ℚ
deriving DecidableEq

/-- A material datablock: its name and, when the default Principled BSDF
node was found and configured, that node; `bsdf = none` models a material
whose node lookup failed and whose sockets were therefore never written. -/
structure NodeMaterial : Type where
  name : String
  bsdf : Option PrincipledBSDF
deriving DecidableEq

namespace V1

/-- create_mat of vignelli_visual_score.py: the Principled BSDF lookup
result is dereferenced without a guard, so a missing node raises an
uncaught AttributeError; on success it sets Base Color and Roughness 0.1. -/
def create_mat (node : Option PrincipledBSDF) (name : String)
    (color : ℚ × ℚ × ℚ × ℚ) : Except String NodeMaterial :=
  match node with
  | none => Except.error "AttributeError: NoneType has no attribute inputs"
  | some b => Except.ok
      { name := name, bsdf := some { b with base_color := color, roughness := 1/10 } }

/-- CPython random.uniform(a, b) = a + (b - a) * random(), with the unit
draw made explicit. -/
def uniform (a b u : ℚ) : ℚ := a + (b - a) * u

/-- Height of the grid block at cell (c, r) in vignelli_visual_score.py,
where u1 is the cell's first unseeded uniform draw (always made) and u2 the
second draw (made, and overwriting the first, exactly at beat cells). -/
def cellHeight (u1 u2 : ℚ) (c r : Nat) : ℚ :=
  if c % 3 = 0 ∨ r % 4 = 0 then uniform 2 4 u2 else uniform (1/10) (5/10) u1

/-- Whether the block at cell (c, r) receives the red material in
vignelli_visual_score.py, where u3 is the cell's random.random() draw
(consumed only at beat cells, by short-circuit evaluation). -/
def cellIsRed (u3 : ℚ) (c r : Nat) : Bool :=
  (decide (c % 3 = 0) || decide (r % 4 = 0)) && decide ((3:ℚ)/10 < u3)

end V1

namespace V2

/-- create_mat of vignelli_visual_score_v2.py: unguarded node dereference,
sets Base Color and the given Roughness. -/
def create_mat (node : Option PrincipledBSDF) (name : String)
    (color : ℚ × ℚ × ℚ × ℚ) (roughness : ℚ) : Except String NodeMaterial :=
  match node with
  | none => Except.error "AttributeError: NoneType has no attribute inputs"
  | some b => Except.ok
      { name := name, bsdf := some { b with base_color := color, roughness := roughness } }

def FIB : List ℚ := [1, 2, 3, 5, 8, 13]

/-- Height of the grid block at cell (c, r) in vignelli_visual_score_v2.py:
Fibonacci-indexed on harmonic rows/columns, 0.1 otherwise. -/
def height (c r : Nat) : ℚ :=
  if c % 3 = 0 ∨ r % 4 = 0 then FIB.getD ((c + r) % FIB.length) 0 * (25/100)
  else 1/10

/-- is_red of vignelli_visual_score_v2.py: the strict intersection of the
two harmonic conditions; no randomness. -/
def is_red (c r : Nat) : Bool :=
  decide (c % 3 = 0) && decide (r % 4 = 0)

end V2

namespace V3

def COLS : Nat := 12
def ROWS : Nat := 12
def MODULE_SIZE : ℚ := 1
def GUTTER : ℚ := 1/10
def FIB : List ℚ := [1, 2, 3, 5, 8, 13]

/-- mathutils Vector.lerp: self * (1 - factor) + other * factor, one
channel. -/
def lerp (a b t : ℚ) : ℚ := a * (1 - t) + b * t

/-- The cool endpoint (cyan-blue) of the v3 temperature gradient. -/
def cool : ℚ × ℚ × ℚ := (2/10, 5/10, 85/100)

/-- The warm endpoint (orange-red) of the v3 temperature gradient. -/
def warm : ℚ × ℚ × ℚ := (95/100, 4/10, 15/100)

/-- color_from_temperature of vignelli_visual_score_v3.py: lerp the cool
vector toward the warm vector by t and append alpha 1. -/
def color_from_temperature (t : ℚ) : ℚ × ℚ × ℚ × ℚ :=
  (lerp cool.1 warm.1 t, lerp cool.2.1 warm.2.1 t, lerp cool.2.2 warm.2.2 t, 1)

/-- create_material of vignelli_visual_score_v3.py: unguarded node
dereference; sets Base Color, Roughness, Transmission Weight and IOR 1.45. -/
def create_material (node : Option PrincipledBSDF) (name : String)
    (color : ℚ × ℚ × ℚ × ℚ) (roughness transmission : ℚ) :
    Except String NodeMaterial :=
  match node with
  | none => Except.error "AttributeError: NoneType has no attribute inputs"
  | some b => Except.ok
      { name := name,
        bsdf := some { b with base_color := color, roughness := roughness,
                              transmission := transmission, ior := 145/100 } }

/-- One stop of the v3 palette: the arguments passed to create_material for
index i of the palette loop. -/
structure PaletteStop : Type where
  name : String
  color : ℚ × ℚ × ℚ × ℚ
  roughness : ℚ
  transmission : ℚ
deriving DecidableEq

/-- The materials palette of vignelli_visual_score_v3.py: seven temperature
stops, stop i at t = i/6 with roughness 0.7 - t*0.5 and transmission 0.1 on
even stops. -/
def materials : List PaletteStop :=
  (List.range 7).map (fun i =>
    let t : ℚ := i / 6
    { name := "Temp_" ++ toString i,
      color := color_from_temperature t,
      roughness := 7/10 - t * (5/10),
      transmission := if i % 2 = 0 then 1/10 else 0 })

/-- Height of the grid block at cell (c, r) in vignelli_visual_score_v3.py. -/
def height (c r : Nat) : ℚ :=
  let fib_index := (c + r) % FIB.length
  if c % 3 = 0 ∧ r % 4 = 0 then FIB.getD fib_index 0 * (35/100)
  else if c % 3 = 0 ∨ r % 4 = 0 then FIB.getD fib_index 0 * (2/10)
  else 1/10

/-- mathutils 2D Vector.length. -/
noncomputable def vlength2 (v : ℝ × ℝ) : ℝ := Real.sqrt (v.1 ^ 2 + v.2 ^ 2)

/-- The grid center of vignelli_visual_score_v3.py. -/
noncomputable def center : ℝ × ℝ :=
  ((COLS : ℝ) * ((MODULE_SIZE : ℝ) + (GUTTER : ℝ)) / 2,
   (ROWS : ℝ) * ((MODULE_SIZE : ℝ) + (GUTTER : ℝ)) / 2)

/-- Temperature at cell (c, r): 1 minus the cell's distance from the grid
center, normalized by the center's own length. -/
noncomputable def temperature (c r : Nat) : ℝ :=
  let x : ℝ := (c : ℝ) * ((MODULE_SIZE : ℝ) + (GUTTER : ℝ))
  let y : ℝ := (r : ℝ) * ((MODULE_SIZE : ℝ) + (GUTTER : ℝ))
  1 - vlength2 (x - center.1, y - center.2) / vlength2 center

/-- Python int() on a float: truncation toward zero. -/
noncomputable def pyInt (q : ℝ) : ℤ := if 0 ≤ q then ⌊q⌋ else ⌈q⌉

/-- mat_index of vignelli_visual_score_v3.py: int(temperature * 6) clamped
by max(0, min(6, _)). -/
noncomputable def mat_index (c r : Nat) : ℤ :=
  max 0 (min 6 (pyInt (temperature c r * 6)))

end V3

namespace V4

/-- create_material of vignelli_visual_score_v4.py: unguarded node
dereference; sets Base Color, Roughness, Metallic, Emission Strength, and
Emission Color (to the base color) exactly when emission > 0. -/
def create_material (node : Option PrincipledBSDF) (name : String)
    (color : ℚ × ℚ × ℚ × ℚ) (roughness metallic emission : ℚ) :
    Except String NodeMaterial :=
  match node with
  | none => Except.error "AttributeError: NoneType has no attribute inputs"
  | some b => Except.ok
      { name := name,
        bsdf := some { b with base_color := color, roughness := roughness,
                              metallic := metallic,
                              emission_strength := emission,
                              emission_color :=
                                if 0 < emission then color else b.emission_color } }

/-- mathutils 3D Vector.length. -/
noncomputable def vlength (v : ℝ × ℝ × ℝ) : ℝ :=
  Real.sqrt (v.1 ^ 2 + v.2.1 ^ 2 + v.2.2 ^ 2)

/-- Componentwise difference of two 3D vectors. -/
def vsub (a b : ℝ × ℝ × ℝ) : ℝ × ℝ × ℝ :=
  (a.1 - b.1, a.2.1 - b.2.1, a.2.2 - b.2.2)

/-- The three fixed emergence centers of vignelli_visual_score_v4.py. -/
def emergence_centers : List (ℝ × ℝ × ℝ) := [(8, 6, 0), (4, 12, 0), (12, 10, 0)]

/-- Gaussian influence of one emergence center at point (x, y):
exp(-(dist^2) / 8.0) for dist the distance from (x, y, 0) to the center. -/
noncomputable def influence (x y : ℝ) (center : ℝ × ℝ × ℝ) : ℝ :=
  Real.exp (-(vlength (vsub (x, y, 0) center)) ^ 2 / 8)

/-- The subtle noise term of calculate_emergence. -/
noncomputable def noise (x y : ℝ) : ℝ :=
  (Real.sin (x * (7/10)) + Real.cos (y * (6/10))) * (5/100)

/-- calculate_emergence of vignelli_visual_score_v4.py: fold max over the
center influences starting from 0.0, add the noise, clamp to the unit
interval via min(1.0, max(0.0, _)). -/
noncomputable def calculate_emergence (x y : ℝ) : ℝ :=
  min 1 (max 0 ((emergence_centers.map (influence x y)).foldl max 0 + noise x y))

end V4

namespace PV

/-- create_material of palladian_villa.py: the Principled BSDF lookup is
guarded by `if bsdf:`, so a missing node is skipped silently and the
material is returned with no socket ever written. -/
def create_material (node : Option PrincipledBSDF) (name : String)
    (color : ℚ × ℚ × ℚ) (roughness metallic : ℚ) : Except String NodeMaterial :=
  match node with
  | none => Except.ok { name := name, bsdf := none }
  | some b => Except.ok
      { name := name,
        bsdf := some { b with base_color := (color.1, color.2.1, color.2.2, 1),
                              roughness := roughness, metallic := metallic } }

end PV

namespace VR

/-- create_material of villa_rotonda.py: guarded by `if bsdf:`, silently
returns an unconfigured material when the node is missing. -/
def create_material (node : Option PrincipledBSDF) (name : String)
    (color : ℚ × ℚ × ℚ) (roughness : ℚ) : Except String NodeMaterial :=
  match node with
  | none => Except.ok { name := name, bsdf := none }
  | some b => Except.ok
      { name := name,
        bsdf := some { b with base_color := (color.1, color.2.1, color.2.2, 1),
                              roughness := roughness } }

end VR

/-- C1: in the v3 grid loop, every cell (c, r) with c < 12, r < 12,
c % 3 = 0 and r % 4 = 0 gets height FIB[(c + r) % len(FIB)] * 0.35. -/
theorem C1_v3_harmonic_height (c r : Nat) (_hc : c < 12) (_hr : r < 12)
    (hx : c % 3 = 0) (hy : r % 4 = 0) :
    V3.height c r = V3.FIB.getD ((c + r) % V3.FIB.length) 0 * (35/100) := by
  simp only [V3.height, hx, hy, and_self, if_true]

/-- C1 witness: at cell (3, 4), both harmonic conditions hold and the
height is FIB[(3 + 4) % 6] * 0.35 = 2 * 0.35 = 0.7. -/
theorem C1_witness : (3:Nat) < 12 ∧ (4:Nat) < 12 ∧ V3.height 3 4 = 7/10 :=
  ⟨by norm_num, by norm_num,
   by rw [C1_v3_harmonic_height 3 4 (by norm_num) (by norm_num) rfl rfl]
      norm_num [V3.FIB]⟩

/-- C2 counterexample: villa_rotonda.py invokes the render call four times
(perspective, plan, section, elevation), not exactly once. -/
theorem C2_counterexample :
    (renderPaths Script.villa_rotonda).length = 4 ∧
    (renderPaths Script.villa_rotonda).length ≠ 1 := by decide

/-- C2 amended: every script renders to hardcoded paths; create_art,
palladian_villa and the four vignelli scripts invoke render exactly once,
while villa_rotonda invokes it four times. -/
theorem C2_render_counts :
    ∀ s : Script,
      (renderPaths s).length = if s = Script.villa_rotonda then 4 else 1 := by
  intro s; cases s <;> decide

/-- C3 counterexample: in vignelli_visual_score.py the height of cell
(0, 0) is drawn from an unseeded uniform distribution; the draws 0 and 1/2
give heights 2 and 3, so two executions need not agree. -/
theorem C3_counterexample :
    V1.cellHeight 0 0 0 0 ≠ V1.cellHeight 0 (1/2) 0 0 := by
  norm_num [V1.cellHeight, V1.uniform]

/-- C3 amended: v2 and v3 compute each cell purely from (c, r) and
constants, but in the first vignelli script the beat-cell height is
2 + (4 - 2) * u for the cell's unseeded second draw u, and the red choice
holds iff the color draw exceeds 0.3, so per-cell results depend on the
random draws and two executions need not coincide (v4 also draws, but
seeds the generator with 42, so its executions are reproducible). -/
theorem C3_v1_depends_on_draws :
    (∀ u1 u2 : ℚ, V1.cellHeight u1 u2 0 0 = 2 + (4 - 2) * u2) ∧
    (∀ u3 : ℚ, (V1.cellIsRed u3 0 0 = true ↔ (3:ℚ)/10 < u3)) := by
  constructor
  · intro u1 u2; simp [V1.cellHeight, V1.uniform]
  · intro u3; simp [V1.cellIsRed]

/-- C4 counterexample: palladian_villa.py guards its Principled BSDF lookup
with `if bsdf:`; with the node missing, the call for its stone material
returns a material normally instead of raising an uncaught error. -/
theorem C4_counterexample :
    ¬ ∃ e, PV.create_material none "RusticStone" (55/100, 5/10, 45/100) (9/10) 0
        = Except.error e := by
  rintro ⟨e, h⟩
  exact Except.noConfusion h

/-- C4 amended: the four vignelli material helpers dereference the node
lookup unguarded, so a missing Principled BSDF node raises an uncaught
error there; the helpers of palladian_villa.py and villa_rotonda.py guard
the lookup and silently return a material with no socket configured. -/
theorem C4_missing_node_behaviour :
    (∀ n c, ∃ e, V1.create_mat none n c = Except.error e) ∧
    (∀ n c rg, ∃ e, V2.create_mat none n c rg = Except.error e) ∧
    (∀ n c rg tr, ∃ e, V3.create_material none n c rg tr = Except.error e) ∧
    (∀ n c rg mt em, ∃ e, V4.create_material none n c rg mt em = Except.error e) ∧
    (∀ n c rg mt, PV.create_material none n c rg mt
        = Except.ok { name := n, bsdf := none }) ∧
    (∀ n c rg, VR.create_material none n c rg
        = Except.ok { name := n, bsdf := none }) :=
  ⟨fun _ _ => ⟨_, rfl⟩, fun _ _ _ => ⟨_, rfl⟩, fun _ _ _ _ => ⟨_, rfl⟩,
   fun _ _ _ _ _ => ⟨_, rfl⟩, fun _ _ _ _ => rfl, fun _ _ _ => rfl⟩

/-- C5 counterexample: in vignelli_visual_score_v4.py the per-block
materials are created inside the grid loop after each cube is placed, so
not every material definition precedes every geometry-placement call. -/
theorem C5_counterexample :
    materialsFirst (trace Script.vignelli_v4 true) = false := by decide

/-- C5 amended: in every script the scene-clearing calls precede every
object-creation call, but all material definitions precede all geometry
placement only in palladian_villa, villa_rotonda and the first two
vignelli scripts; create_art, v3 and v4 create some materials after
placing geometry. -/
theorem C5_phase_order :
    ∀ (s : Script) (b : Bool),
      clearFirst (trace s b) = true ∧
      (materialsFirst (trace s b) = true ↔
        (s = Script.palladian_villa ∨ s = Script.villa_rotonda ∨
         s = Script.vignelli_v1 ∨ s = Script.vignelli_v2)) := by
  intro s b
  cases s <;> cases b <;> exact ⟨by decide, by decide⟩

/-- C6: each grid script's double loop runs exactly COLS * ROWS times and
COLS * ROWS is at most 256. -/
theorem C6_grid_bound :
    ∀ (s : Script) (d : Nat × Nat), gridDims s = some d →
      (gridCells d.1 d.2).length = d.1 * d.2 ∧ d.1 * d.2 ≤ 256 := by
  intro s d h
  cases s <;>
    first
      | exact Option.noConfusion h
      | (injection h with h2; subst h2; decide)

/-- C6 witness: the v4 script's 16 by 16 loop runs 256 times, within the
bound. -/
theorem C6_witness :
    (gridCells (16, 16).1 (16, 16).2).length = (16, 16).1 * (16, 16).2 ∧
      (16, 16).1 * (16, 16).2 ≤ 256 :=
  C6_grid_bound Script.vignelli_v4 (16, 16) rfl

/-- C7: the v3 palette has exactly 7 stops, stop i colored by
color_from_temperature (i/6); that function is the linear interpolation
cool + t * (warm - cool) with alpha 1, sends 0 to the cool color and 1 to
the warm color, and each color channel is monotone in t (the red channel
increases, green and blue decrease). -/
theorem C7_palette :
    V3.materials.length = 7 ∧
    V3.materials.map V3.PaletteStop.color
      = (List.range 7).map (fun i => V3.color_from_temperature ((i : ℚ) / 6)) ∧
    (∀ t : ℚ, V3.color_from_temperature t
      = (V3.cool.1 + t * (V3.warm.1 - V3.cool.1),
         V3.cool.2.1 + t * (V3.warm.2.1 - V3.cool.2.1),
         V3.cool.2.2 + t * (V3.warm.2.2 - V3.cool.2.2), 1)) ∧
    V3.color_from_temperature 0 = (V3.cool.1, V3.cool.2.1, V3.cool.2.2, 1) ∧
    V3.color_from_temperature 1 = (V3.warm.1, V3.warm.2.1, V3.warm.2.2, 1) ∧
    (∀ t1 t2 : ℚ, t1 ≤ t2 →
      (V3.color_from_temperature t1).1 ≤ (V3.color_from_temperature t2).1 ∧
      (V3.color_from_temperature t2).2.1 ≤ (V3.color_from_temperature t1).2.1 ∧
      (V3.color_from_temperature t2).2.2.1 ≤ (V3.color_from_temperature t1).2.2.1) := by
  refine ⟨rfl, by simp [V3.materials], ?_, ?_, ?_, ?_⟩
  · intro t
    simp only [V3.color_from_temperature, V3.lerp, V3.cool, V3.warm, Prod.mk.injEq]
    refine ⟨by ring, by ring, by ring, trivial⟩
  · norm_num [V3.color_from_temperature, V3.lerp, V3.cool, V3.warm]
  · norm_num [V3.color_from_temperature, V3.lerp, V3.cool, V3.warm]
  · intro t1 t2 h
    simp only [V3.color_from_temperature, V3.lerp, V3.cool, V3.warm]
    refine ⟨?_, ?_, ?_⟩ <;> norm_num <;> linarith

/-- C7 witness: 0 ≤ 1, and the red channel at the cool end is at most the
red channel at the warm end. -/
theorem C7_witness :
    ((0:ℚ) ≤ 1) ∧
      (V3.color_from_temperature 0).1 ≤ (V3.color_from_temperature 1).1 :=
  ⟨by norm_num, (C7_palette.2.2.2.2.2 0 1 (by norm_num)).1⟩

/-- C8: calculate_emergence (x, y) is the maximum of the three Gaussian
center influences plus the noise term, clamped to [0, 1]; in particular its
value always lies in [0, 1]. -/
theorem C8_emergence_bounds :
    ∀ x y : ℝ,
      V4.calculate_emergence x y
        = min 1 (max 0
            (max (max (V4.influence x y (8, 6, 0)) (V4.influence x y (4, 12, 0)))
              (V4.influence x y (12, 10, 0)) + V4.noise x y)) ∧
      0 ≤ V4.calculate_emergence x y ∧ V4.calculate_emergence x y ≤ 1 := by
  intro x y
  have h1 : (0:ℝ) ≤ V4.influence x y (8, 6, 0) := le_of_lt (Real.exp_pos _)
  have hfold : (V4.emergence_centers.map (V4.influence x y)).foldl max 0
      = max (max (V4.influence x y (8, 6, 0)) (V4.influence x y (4, 12, 0)))
          (V4.influence x y (12, 10, 0)) := by
    simp [V4.emergence_centers, List.foldl, max_eq_right h1]
  refine ⟨by simp only [V4.calculate_emergence, hfold], ?_, ?_⟩
  · exact le_min (by norm_num) (le_max_left _ _)
  · exact min_le_left _ _

/-- C9: in the v2 script a block is red iff c % 3 = 0 and r % 4 = 0, and
exactly 12 of the 144 blocks are red, namely the cells with c in
{0, 3, 6, 9} and r in {0, 4, 8}; the choice involves no randomness. -/
theorem C9_v2_red_cells :
    (∀ c r : Nat, (V2.is_red c r = true ↔ (c % 3 = 0 ∧ r % 4 = 0))) ∧
    (gridCells 12 12).length = 144 ∧
    (gridCells 12 12).filter (fun p => V2.is_red p.1 p.2)
      = [(0, 0), (0, 4), (0, 8), (3, 0), (3, 4), (3, 8),
         (6, 0), (6, 4), (6, 8), (9, 0), (9, 4), (9, 8)] ∧
    ((gridCells 12 12).filter (fun p => V2.is_red p.1 p.2)).length = 12 := by
  refine ⟨?_, by decide, by decide, by decide⟩
  intro c r
  simp [V2.is_red]

/-- C10: in the v3 script the clamped material index lies in [0, 6] for
every cell, the palette has exactly 7 entries, and the palette lookup is
therefore in bounds for every cell. -/
theorem C10_mat_index_in_bounds :
    ∀ c r : Nat,
      0 ≤ V3.mat_index c r ∧ V3.mat_index c r ≤ 6 ∧
      V3.materials.length = 7 ∧
      (V3.mat_index c r).toNat < V3.materials.length := by
  intro c r
  have h0 : 0 ≤ V3.mat_index c r := le_max_left 0 _
  have h6 : V3.mat_index c r ≤ 6 := by
    simp only [V3.mat_index]
    exact max_le (by norm_num) (min_le_left _ _)
  have hlen : V3.materials.length = 7 := rfl
  exact ⟨h0, h6, hlen, by rw [hlen]; omega⟩
